import Mathlib

/-!
Verification of the wagtail_project repository excerpt: admin API filters,
the moderation-notification mail module, and the page-tree maintenance
commands (`set_url_paths`, `move_pages`), shallowly embedded in Lean.
-/

namespace Wagtail

/-! ## Admin API filters (`src/wagtail/admin/api/filters.py`) -/

/-- An HTTP request as the filters see it: the GET query parameters. -/
structure Request where
  params : List (String × String)

/-- Look a parameter up in `request.GET`; `none` means the key is absent. -/
def Request.get (r : Request) (k : String) : Option String :=
  (r.params.find? (fun kv => kv.1 == k)).map (fun kv => kv.2)

/-- Modelled from the spec: `parse_boolean` (from `wagtail.api.v2.utils`, not under
`src/`) maps each truthy string encoding of a boolean to `true`, each falsy
encoding to `false`, and fails on any other value. -/
def parse_boolean (value : String) : Option Bool :=
  if value = "true" ∨ value = "1" then some true
  else if value = "false" ∨ value = "0" then some false
  else none

/-- A page row as the listing filters see it: its child count (`numchild`)
and its explorer flag (`for_explorer`). -/
structure PageItem where
  numchild : Nat
  for_explorer : Bool
deriving DecidableEq, Repr

/-- `HasChildrenFilter.filter_queryset`: when `has_children` is present it is parsed
as a boolean (a parse failure raises a bad-request error); `true` keeps rows with
`numchild > 0`, otherwise rows with `numchild = 0`; when absent the queryset is
returned unchanged. -/
def HasChildrenFilter.filter_queryset (request : Request) (queryset : List PageItem) :
    Except String (List PageItem) :=
  match request.get "has_children" with
  | some value =>
      match parse_boolean value with
      | none => .error "has_children must be 'true' or 'false'"
      | some has_children_filter =>
          if has_children_filter = true then
            .ok (queryset.filter (fun p => decide (0 < p.numchild)))
          else
            .ok (queryset.filter (fun p => decide (p.numchild = 0)))
  | none => .ok queryset

/-- `ForExplorerFilter.filter_queryset`: when `for_explorer` is present it is parsed
as a boolean (a parse failure raises a bad-request error); only a `true` value
filters, to rows with the explorer flag set; in every other case the queryset is
returned unchanged. -/
def ForExplorerFilter.filter_queryset (request : Request) (queryset : List PageItem) :
    Except String (List PageItem) :=
  match request.get "for_explorer" with
  | some value =>
      match parse_boolean value with
      | none => .error "for_explorer must be 'true' or 'false'"
      | some for_explorer_filter =>
          if for_explorer_filter = true then
            .ok (queryset.filter (fun p => p.for_explorer))
          else
            .ok queryset
  | none => .ok queryset

/-- Claim C5: when `has_children` parses as a truthy boolean the filter returns
exactly the items with positive child count, and when it parses as a falsy boolean
exactly the items with zero children. -/
theorem hasChildren_filters_by_child_count (request : Request) (queryset : List PageItem)
    (value : String) (b : Bool)
    (hv : request.get "has_children" = some value)
    (hp : parse_boolean value = some b) :
    ∃ result, HasChildrenFilter.filter_queryset request queryset = .ok result ∧
      ∀ p, p ∈ result ↔ p ∈ queryset ∧ (if b then 0 < p.numchild else p.numchild = 0) := by
  unfold HasChildrenFilter.filter_queryset
  rw [hv]
  simp only [hp]
  cases b with
  | true =>
      refine ⟨_, rfl, ?_⟩
      intro p
      simp [List.mem_filter]
  | false =>
      refine ⟨_, rfl, ?_⟩
      intro p
      simp [List.mem_filter]

/-- Witness for C5: on a concrete request and queryset, the truthy branch keeps
exactly the rows with children. -/
theorem hasChildren_filters_by_child_count_witness :
    ∃ result,
      HasChildrenFilter.filter_queryset ⟨[("has_children", "true")]⟩
        [⟨2, false⟩, ⟨0, true⟩] = .ok result ∧
      ∀ p, p ∈ result ↔ p ∈ [(⟨2, false⟩ : PageItem), ⟨0, true⟩] ∧
        (if true then 0 < p.numchild else p.numchild = 0) :=
  hasChildren_filters_by_child_count ⟨[("has_children", "true")]⟩
    [⟨2, false⟩, ⟨0, true⟩] "true" true rfl rfl

/-- Claim C6: independently for each parameter — whenever `has_children` is present
but does not parse as a boolean, `HasChildrenFilter.filter_queryset` raises its
bad-request error (so no filtered queryset is returned), and whenever
`for_explorer` is present but does not parse as a boolean,
`ForExplorerFilter.filter_queryset` raises its bad-request error. -/
theorem invalid_boolean_param_raises (request : Request) (queryset : List PageItem) :
    (∀ v1, request.get "has_children" = some v1 → parse_boolean v1 = none →
      HasChildrenFilter.filter_queryset request queryset =
        .error "has_children must be 'true' or 'false'") ∧
    (∀ v2, request.get "for_explorer" = some v2 → parse_boolean v2 = none →
      ForExplorerFilter.filter_queryset request queryset =
        .error "for_explorer must be 'true' or 'false'") := by
  constructor
  · intro v1 h1 hp1
    unfold HasChildrenFilter.filter_queryset
    rw [h1]
    simp only [hp1]
  · intro v2 h2 hp2
    unfold ForExplorerFilter.filter_queryset
    rw [h2]
    simp only [hp2]

/-- Witness for C6: the value `"yes"` parses as neither boolean; a request carrying
only an invalid `has_children`, and a request carrying only an invalid
`for_explorer`, each make the corresponding filter raise its error. -/
theorem invalid_boolean_param_raises_witness :
    HasChildrenFilter.filter_queryset ⟨[("has_children", "yes")]⟩
        [⟨1, true⟩] = .error "has_children must be 'true' or 'false'" ∧
    ForExplorerFilter.filter_queryset ⟨[("for_explorer", "yes")]⟩
        [⟨1, true⟩] = .error "for_explorer must be 'true' or 'false'" :=
  ⟨(invalid_boolean_param_raises ⟨[("has_children", "yes")]⟩ [⟨1, true⟩]).1
      "yes" rfl rfl,
   (invalid_boolean_param_raises ⟨[("for_explorer", "yes")]⟩ [⟨1, true⟩]).2
      "yes" rfl rfl⟩

/-- Claim C10: an absent `for_explorer` parameter, or one parsing as falsy, leaves
the queryset unchanged, and an absent `has_children` parameter leaves the queryset
unchanged. -/
theorem absent_or_falsy_params_leave_queryset (request : Request) (queryset : List PageItem) :
    (request.get "for_explorer" = none →
      ForExplorerFilter.filter_queryset request queryset = .ok queryset) ∧
    (∀ value, request.get "for_explorer" = some value → parse_boolean value = some false →
      ForExplorerFilter.filter_queryset request queryset = .ok queryset) ∧
    (request.get "has_children" = none →
      HasChildrenFilter.filter_queryset request queryset = .ok queryset) := by
  refine ⟨?_, ?_, ?_⟩
  · intro h
    unfold ForExplorerFilter.filter_queryset
    rw [h]
  · intro value hv hp
    unfold ForExplorerFilter.filter_queryset
    rw [hv]
    simp only [hp]
    simp
  · intro h
    unfold HasChildrenFilter.filter_queryset
    rw [h]

/-- Witness for C10: a request with no parameters and one with a falsy
`for_explorer` both leave a concrete queryset unchanged. -/
theorem absent_or_falsy_params_leave_queryset_witness :
    ForExplorerFilter.filter_queryset ⟨[]⟩ [⟨1, true⟩] = .ok [⟨1, true⟩] ∧
    ForExplorerFilter.filter_queryset ⟨[("for_explorer", "false")]⟩ [⟨1, true⟩] =
      .ok [⟨1, true⟩] ∧
    HasChildrenFilter.filter_queryset ⟨[]⟩ [⟨1, true⟩] = .ok [⟨1, true⟩] :=
  ⟨(absent_or_falsy_params_leave_queryset ⟨[]⟩ [⟨1, true⟩]).1 rfl,
   (absent_or_falsy_params_leave_queryset ⟨[("for_explorer", "false")]⟩ [⟨1, true⟩]).2.1
     "false" rfl rfl,
   (absent_or_falsy_params_leave_queryset ⟨[]⟩ [⟨1, true⟩]).2.2 rfl⟩

/-! ## Moderation mail (`src/wagtail/admin/mail.py`)

Django querysets over the user table are modelled as lists drawn from an ambient
list `objects` of all users; template rendering is an ambient function from a
template name to a string (the rendered context does not affect any claim). -/

/-- A Django user row, with the fields the mail module reads. -/
structure User where
  pk : Nat
  email : String
  is_active : Bool
  is_superuser : Bool
deriving DecidableEq, Repr

/-- The message handed to the mail backend by `send_mail`. -/
structure EmailMessage where
  subject : String
  message : String
  from_email : String
  recipient_list : List String
  extra_headers : List (String × String)
deriving DecidableEq, Repr

/-- `send_mail`: wrapper around `EmailMultiAlternatives` with custom `from_email`
handling (defaulting to `settings.DEFAULT_FROM_EMAIL`) and the special
`Auto-Submitted` header; it returns the message it sends. -/
def send_mail (subject message : String) (recipient_list : List String)
    (from_email : Option String) (DEFAULT_FROM_EMAIL : String) : EmailMessage :=
  let from_email := match from_email with
    | none => DEFAULT_FROM_EMAIL
    | some f => f
  { subject := subject, message := message, from_email := from_email,
    recipient_list := recipient_list,
    extra_headers := [("Auto-Submitted", "auto-generated")] }

/-- `send_notification`: collects the addresses of recipients with a non-empty
email; when there are none it returns without sending (`none`), otherwise it
renders the subject (stripped) and body and sends one mail. `render` stands for
`render_to_string` (the templates live outside this repository). -/
def send_notification (render : String → String) (DEFAULT_FROM_EMAIL : String)
    (recipient_users : List User) (notification : String) : Option EmailMessage :=
  let recipient_emails :=
    (recipient_users.filter (fun user => user.email != "")).map (fun user => user.email)
  if recipient_emails = [] then none
  else
    let template_name := "wagtailadmin/notifications/" ++ notification ++ ".txt"
    let subject :=
      (render ("wagtailadmin/notifications/" ++ notification ++ ".subject.txt")).trim
    let message := render template_name
    some (send_mail subject message recipient_emails none DEFAULT_FROM_EMAIL)

/-- `send_moderation_notification`: dispatches on the notification name to pick the
recipient computation (`users_with_page_permission`, from `wagtail.admin.auth`
outside `src/`, taken here as an ambient function from a permission name and the
excluded acting user to users), raising `ValueError` on an unknown name; the
page/revision extra context only feeds rendering and is elided. -/
def send_moderation_notification
    (users_with_page_permission : String → Option User → List User)
    (render : String → String) (DEFAULT_FROM_EMAIL : String)
    (notification : String) (excluded_user : Option User) :
    Except String (Option EmailMessage) :=
  if notification = "submitted_for_moderation" then
    .ok (send_notification render DEFAULT_FROM_EMAIL
      (users_with_page_permission "change" excluded_user) notification)
  else if notification = "approved_moderation" then
    .ok (send_notification render DEFAULT_FROM_EMAIL
      (users_with_page_permission "publish" excluded_user) notification)
  else if notification = "rejected_moderation" then
    .ok (send_notification render DEFAULT_FROM_EMAIL
      (users_with_page_permission "change" excluded_user) notification)
  else
    .error "Unknown notification type"

/-- The generic `Notifier` class: its overridable methods, as a record. In the
call protocol `send_notifications` reports success together with the messages it
sent (template and context computation only feed that call and are elided into
it). -/
structure Notifier (α : Type) where
  can_handle : α → Bool
  get_valid_recipients : α → List User
  send_notifications : α → List User → Bool × List EmailMessage

/-- `Notifier.__call__`: returns `false` when the instance cannot be handled,
`true` without sending when there are no valid recipients, and otherwise the
result of `send_notifications`. The second component lists the messages sent. -/
def Notifier.call {α : Type} (n : Notifier α) (inst : α) : Bool × List EmailMessage :=
  if n.can_handle inst = false then (false, [])
  else
    let recipients := n.get_valid_recipients inst
    if recipients = [] then (true, [])
    else n.send_notifications inst recipients

/-- `WorkflowStateSubmissionEmailNotifier.get_recipient_users`: starts from the
superusers when `WAGTAILADMIN_NOTIFICATION_INCLUDE_SUPERUSERS` holds (else an
empty queryset), then evaluates `recipients.exclude(pk=triggering_user.pk)`
WITHOUT binding the result — exactly as the source does — so the returned set is
`recipients` itself. -/
def WorkflowStateSubmissionEmailNotifier.get_recipient_users
    (objects : List User) (WAGTAILADMIN_NOTIFICATION_INCLUDE_SUPERUSERS : Bool)
    (user : Option User) : List User :=
  let triggering_user := user
  let recipients : List User := []
  let recipients :=
    if WAGTAILADMIN_NOTIFICATION_INCLUDE_SUPERUSERS then
      objects.filter (fun u => u.is_superuser)
    else recipients
  let _unused : List User :=
    match triggering_user with
    | some tu => recipients.filter (fun r => r.pk != tu.pk)
    | none => recipients
  recipients

/-- `BaseGroupApprovalTaskStateEmailNotifier.get_recipient_users`: members of the
task's groups (`user_groups` gives each user's group ids, `task_groups` the
task's), widened to the superusers when the setting holds (queryset union), then
with the triggering user excluded by primary key. -/
def BaseGroupApprovalTaskStateEmailNotifier.get_recipient_users
    (objects : List User) (user_groups : User → List Nat) (task_groups : List Nat)
    (WAGTAILADMIN_NOTIFICATION_INCLUDE_SUPERUSERS : Bool)
    (user : Option User) : List User :=
  let triggering_user := user
  let group_members :=
    objects.filter (fun u => (user_groups u).any (fun g => task_groups.contains g))
  let recipients := group_members
  let recipients :=
    if WAGTAILADMIN_NOTIFICATION_INCLUDE_SUPERUSERS then
      objects.filter (fun u =>
        (user_groups u).any (fun g => task_groups.contains g) || u.is_superuser)
    else recipients
  let recipients :=
    match triggering_user with
    | some tu => recipients.filter (fun r => r.pk != tu.pk)
    | none => recipients
  recipients

/-- Claim C9: every message produced by `send_mail` carries the extra header
`Auto-Submitted: auto-generated`, for every subject, body, recipient list and
from-address. -/
theorem send_mail_auto_submitted_header (subject message : String)
    (recipient_list : List String) (from_email : Option String)
    (DEFAULT_FROM_EMAIL : String) :
    ("Auto-Submitted", "auto-generated") ∈
      (send_mail subject message recipient_list from_email
        DEFAULT_FROM_EMAIL).extra_headers := by
  simp [send_mail]

/-- Claim C8: `send_moderation_notification` raises `ValueError` (sending nothing)
on every notification name other than the three known ones, and on each known
name selects the corresponding permission-based recipient computation
(`change`, `publish`, `change`). -/
theorem send_moderation_notification_dispatch
    (users_with_page_permission : String → Option User → List User)
    (render : String → String) (DEFAULT_FROM_EMAIL : String)
    (notification : String) (excluded_user : Option User)
    (h : notification ≠ "submitted_for_moderation" ∧ notification ≠ "approved_moderation" ∧
      notification ≠ "rejected_moderation") :
    send_moderation_notification users_with_page_permission render DEFAULT_FROM_EMAIL
        notification excluded_user = .error "Unknown notification type" ∧
    send_moderation_notification users_with_page_permission render DEFAULT_FROM_EMAIL
        "submitted_for_moderation" excluded_user =
      .ok (send_notification render DEFAULT_FROM_EMAIL
        (users_with_page_permission "change" excluded_user) "submitted_for_moderation") ∧
    send_moderation_notification users_with_page_permission render DEFAULT_FROM_EMAIL
        "approved_moderation" excluded_user =
      .ok (send_notification render DEFAULT_FROM_EMAIL
        (users_with_page_permission "publish" excluded_user) "approved_moderation") ∧
    send_moderation_notification users_with_page_permission render DEFAULT_FROM_EMAIL
        "rejected_moderation" excluded_user =
      .ok (send_notification render DEFAULT_FROM_EMAIL
        (users_with_page_permission "change" excluded_user) "rejected_moderation") := by
  obtain ⟨h1, h2, h3⟩ := h
  refine ⟨?_, ?_, ?_, ?_⟩
  · simp [send_moderation_notification, h1, h2, h3]
  · simp [send_moderation_notification]
  · simp [send_moderation_notification]
  · simp [send_moderation_notification]

/-- Witness for C8: the unknown name `"deleted_moderation"` raises the error and
the three known names dispatch, on concrete ambient functions. -/
theorem send_moderation_notification_dispatch_witness :
    send_moderation_notification (fun _ _ => []) (fun _ => "") ""
        "deleted_moderation" none = .error "Unknown notification type" ∧
    send_moderation_notification (fun _ _ => []) (fun _ => "") ""
        "submitted_for_moderation" none =
      .ok (send_notification (fun _ => "") ""
        ((fun (_ : String) (_ : Option User) => ([] : List User)) "change" none)
        "submitted_for_moderation") ∧
    send_moderation_notification (fun _ _ => []) (fun _ => "") ""
        "approved_moderation" none =
      .ok (send_notification (fun _ => "") ""
        ((fun (_ : String) (_ : Option User) => ([] : List User)) "publish" none)
        "approved_moderation") ∧
    send_moderation_notification (fun _ _ => []) (fun _ => "") ""
        "rejected_moderation" none =
      .ok (send_notification (fun _ => "") ""
        ((fun (_ : String) (_ : Option User) => ([] : List User)) "change" none)
        "rejected_moderation") :=
  send_moderation_notification_dispatch (fun _ _ => []) (fun _ => "") ""
    "deleted_moderation" none (by refine ⟨?_, ?_, ?_⟩ <;> decide)

/-- Claim C7: a notifier that can handle its instance but has no valid recipients
sends nothing and reports success, and `send_notification` sends no mail when no
recipient user has an email address. -/
theorem notifier_empty_recipients_success {α : Type} (n : Notifier α) (inst : α)
    (hc : n.can_handle inst = true) (hr : n.get_valid_recipients inst = [])
    (render : String → String) (DEFAULT_FROM_EMAIL : String)
    (recipient_users : List User) (notification : String)
    (he : ∀ u ∈ recipient_users, u.email = "") :
    n.call inst = (true, []) ∧
    send_notification render DEFAULT_FROM_EMAIL recipient_users notification = none := by
  constructor
  · simp [Notifier.call, hc, hr]
  · unfold send_notification
    have hfilter : recipient_users.filter (fun user => user.email != "") = [] := by
      rw [List.filter_eq_nil_iff]
      intro u hu
      simp [he u hu]
    simp [hfilter]

/-- Witness for C7: a concrete notifier with no valid recipients reports success
without sending, and a single recipient with an empty address yields no mail. -/
theorem notifier_empty_recipients_success_witness :
    (Notifier.call
      ⟨fun _ => true, fun _ => [], fun _ _ => (false, [])⟩ ()) = (true, []) ∧
    send_notification (fun _ => "") "" [⟨1, "", true, false⟩] "submitted" = none :=
  notifier_empty_recipients_success
    ⟨fun _ => true, fun _ => [], fun _ _ => (false, [])⟩ () rfl rfl
    (fun _ => "") "" [⟨1, "", true, false⟩] "submitted" (by decide)

/-- Claim C1 (code bug): with superuser inclusion enabled, a triggering user who
is a superuser IS in the set returned by
`WorkflowStateSubmissionEmailNotifier.get_recipient_users`, because the source
discards the result of `recipients.exclude(pk=triggering_user.pk)`; the same
call on the group-approval notifier does exclude the triggering user. -/
theorem workflow_submission_recipients_include_triggering_superuser :
    (⟨1, "admin@example.com", true, true⟩ : User) ∈
      WorkflowStateSubmissionEmailNotifier.get_recipient_users
        [⟨1, "admin@example.com", true, true⟩] true
        (some ⟨1, "admin@example.com", true, true⟩) ∧
    (⟨1, "admin@example.com", true, true⟩ : User) ∉
      BaseGroupApprovalTaskStateEmailNotifier.get_recipient_users
        [⟨1, "admin@example.com", true, true⟩] (fun _ => []) [] true
        (some ⟨1, "admin@example.com", true, true⟩) := by
  constructor
  · simp [WorkflowStateSubmissionEmailNotifier.get_recipient_users]
  · simp [BaseGroupApprovalTaskStateEmailNotifier.get_recipient_users]

/-! ## Page-tree maintenance commands
(`src/wagtail/management/commands/set_url_paths.py`,
`src/wagtail/management/commands/move_pages.py`) -/

/-- A page node in the content tree: its id, slug, stored `url_path`, and its
children in tree order. -/
inductive Page : Type where
  | mk (id : Nat) (slug : String) (url_path : String) (children : List Page)

/-- The page's numeric id. -/
def Page.id : Page → Nat
  | .mk i _ _ _ => i

/-- The page's slug. -/
def Page.slug : Page → String
  | .mk _ s _ _ => s

/-- The page's stored materialized path. -/
def Page.url_path : Page → String
  | .mk _ _ u _ => u

/-- The page's children (`get_children()`), in tree order. -/
def Page.children : Page → List Page
  | .mk _ _ _ c => c

mutual

/-- `Command.set_subtree` from `set_url_paths.py`: a root (no parent) gets
`url_path = '/'`, any other node its parent's `url_path` plus its slug plus a
trailing `'/'`; the node is saved and the children are visited with the saved
node as parent. -/
def set_subtree : Page → Option Page → Page
  | .mk id slug _ children, parent =>
    let url_path :=
      match parent with
      | none => "/"
      | some p => p.url_path ++ slug ++ "/"
    .mk id slug url_path (set_subtree_children children (.mk id slug url_path children))

/-- The loop `for child in root.get_children(): self.set_subtree(child, root)`. -/
def set_subtree_children : List Page → Page → List Page
  | [], _ => []
  | c :: cs, root => set_subtree c (some root) :: set_subtree_children cs root

end

/-- `Command.handle` from `set_url_paths.py`: run `set_subtree` from every root
node of the forest. -/
def set_url_paths (root_nodes : List Page) : List Page :=
  root_nodes.map (fun node => set_subtree node none)

theorem set_subtree_children_eq_map (cs : List Page) (root : Page) :
    set_subtree_children cs root = cs.map (fun c => set_subtree c (some root)) := by
  induction cs with
  | nil => rfl
  | cons c cs ih => simp [set_subtree_children, ih]

theorem set_subtree_parent_path (p : Page) (q r : Option Page)
    (h : q.map Page.url_path = r.map Page.url_path) :
    set_subtree p q = set_subtree p r := by
  cases p with
  | mk id slug u children =>
    cases q with
    | none =>
        cases r with
        | none => rfl
        | some rr => simp at h
    | some qq =>
        cases r with
        | none => simp at h
        | some rr =>
            have h' : qq.url_path = rr.url_path := by simpa using h
            simp [set_subtree, h']

theorem set_subtree_id (p : Page) (parent : Option Page) :
    (set_subtree p parent).id = p.id := by
  cases p with
  | mk id slug u children => cases parent <;> simp [set_subtree, Page.id]

theorem set_subtree_slug (p : Page) (parent : Option Page) :
    (set_subtree p parent).slug = p.slug := by
  cases p with
  | mk id slug u children => cases parent <;> simp [set_subtree, Page.slug]

theorem set_subtree_url_path_none (p : Page) :
    (set_subtree p none).url_path = "/" := by
  cases p with
  | mk id slug u children => simp [set_subtree, Page.url_path]

theorem set_subtree_url_path_some (p q : Page) :
    (set_subtree p (some q)).url_path = q.url_path ++ p.slug ++ "/" := by
  cases p with
  | mk id slug u children => simp [set_subtree, Page.url_path, Page.slug]

theorem set_subtree_children_spec (p : Page) (parent : Option Page) :
    (set_subtree p parent).children =
      p.children.map (fun c => set_subtree c (some (set_subtree p parent))) := by
  cases p with
  | mk id slug u children =>
    cases parent with
    | none =>
        simp only [set_subtree, Page.children, set_subtree_children_eq_map]
        apply List.map_congr_left
        intro c _
        apply set_subtree_parent_path
        simp [Page.url_path]
    | some q =>
        simp only [set_subtree, Page.children, set_subtree_children_eq_map]
        apply List.map_congr_left
        intro c _
        apply set_subtree_parent_path
        simp [Page.url_path]

mutual

theorem set_subtree_set_subtree : ∀ (p : Page) (q r : Option Page),
    set_subtree (set_subtree p q) r = set_subtree p r
  | .mk id slug u children, q, r => by
    simp only [set_subtree]
    cases r with
    | none =>
        simp only
        congr 1
        exact set_subtree_children_set_subtree children _ _ _ (by simp [Page.url_path])
    | some rr =>
        simp only
        congr 1
        exact set_subtree_children_set_subtree children _ _ _ (by simp [Page.url_path])

theorem set_subtree_children_set_subtree : ∀ (cs : List Page) (a b' b : Page),
    b'.url_path = b.url_path →
    set_subtree_children (set_subtree_children cs a) b' = set_subtree_children cs b
  | [], _, _, _, _ => rfl
  | c :: cs, a, b', b, h => by
    simp only [set_subtree_children]
    rw [set_subtree_set_subtree c (some a) (some b'),
      set_subtree_parent_path c (some b') (some b) (by simp [h]),
      set_subtree_children_set_subtree cs a b' b h]

end

/-- `n` occurs as a node of the tree `t` (as the root or a descendant). -/
inductive InTree : Page → Page → Prop where
  | self : ∀ {t}, InTree t t
  | step : ∀ {n c t}, c ∈ Page.children t → InTree n c → InTree n t

/-- `n` occurs as a node of some tree of the forest `F`. -/
def InForest (n : Page) (F : List Page) : Prop :=
  ∃ t ∈ F, InTree n t

theorem InTree_set_subtree_image {n T : Page} (h : InTree n T) :
    ∀ (m : Page) (par : Option Page), T = set_subtree m par →
      ∃ m' par', n = set_subtree m' par' := by
  induction h with
  | self => exact fun m par hT => ⟨m, par, hT⟩
  | step hc _ ih =>
    intro m par hT
    subst hT
    rw [set_subtree_children_spec] at hc
    obtain ⟨c0, -, rfl⟩ := List.mem_map.mp hc
    exact ih c0 (some (set_subtree m par)) rfl

theorem InForest_set_url_paths_image {n : Page} {F : List Page}
    (h : InForest n (set_url_paths F)) : ∃ m par, n = set_subtree m par := by
  obtain ⟨t, ht, hin⟩ := h
  simp only [set_url_paths, List.mem_map] at ht
  obtain ⟨m, -, rfl⟩ := ht
  exact InTree_set_subtree_image hin m none rfl

theorem image_children_path (m : Page) (par : Option Page) :
    ∀ c ∈ (set_subtree m par).children,
      c.url_path = (set_subtree m par).url_path ++ c.slug ++ "/" := by
  intro c hc
  rw [set_subtree_children_spec] at hc
  obtain ⟨c0, -, rfl⟩ := List.mem_map.mp hc
  rw [set_subtree_url_path_some c0 (set_subtree m par), set_subtree_slug]

/-- Claim C2: the `set_url_paths` command is idempotent — recomputing the
materialized paths a second time yields, for every node, the same tree of
`url_path` strings as a single run. -/
theorem set_url_paths_idempotent (root_nodes : List Page) :
    set_url_paths (set_url_paths root_nodes) = set_url_paths root_nodes := by
  simp only [set_url_paths, List.map_map]
  apply List.map_congr_left
  intro p _
  exact set_subtree_set_subtree p none none

/-- Claim C3: after the `set_url_paths` command runs, every root node's
`url_path` is `'/'`, and every node's child has `url_path` equal to the node's
`url_path` concatenated with the child's slug and a trailing `'/'`. -/
theorem set_url_paths_path_correct (root_nodes : List Page) :
    (∀ t ∈ set_url_paths root_nodes, t.url_path = "/") ∧
    (∀ n, InForest n (set_url_paths root_nodes) →
      ∀ c ∈ n.children, c.url_path = n.url_path ++ c.slug ++ "/") := by
  constructor
  · intro t ht
    simp only [set_url_paths, List.mem_map] at ht
    obtain ⟨m, -, rfl⟩ := ht
    rw [set_subtree_url_path_none]
  · intro n hn c hc
    obtain ⟨m, par, rfl⟩ := InForest_set_url_paths_image hn
    exact image_children_path m par c hc

/-- Witness for C3: on a concrete two-node tree the recomputed root path is `'/'`
and the child's path is the root's path plus its slug plus `'/'`. -/
theorem set_url_paths_path_correct_witness :
    (Page.mk 1 "home" "/" [Page.mk 2 "about" "/about/" []]).url_path = "/" ∧
    (Page.mk 2 "about" "/about/" []).url_path =
      (Page.mk 1 "home" "/" [Page.mk 2 "about" "/about/" []]).url_path ++
        (Page.mk 2 "about" "/about/" []).slug ++ "/" := by
  constructor
  · exact (set_url_paths_path_correct [Page.mk 1 "home" "x" [Page.mk 2 "about" "y" []]]).1
      (Page.mk 1 "home" "/" [Page.mk 2 "about" "/about/" []])
      (List.mem_singleton.mpr rfl)
  · exact (set_url_paths_path_correct [Page.mk 1 "home" "x" [Page.mk 2 "about" "y" []]]).2
      (Page.mk 1 "home" "/" [Page.mk 2 "about" "/about/" []])
      ⟨Page.mk 1 "home" "/" [Page.mk 2 "about" "/about/" []],
        List.mem_singleton.mpr rfl, InTree.self⟩
      (Page.mk 2 "about" "/about/" []) (List.mem_singleton.mpr rfl)

mutual

/-- Modelled from the spec: the detaching half of `Page.move` (`wagtail.models`,
not under `src/`) — search a tree for the node with the given id and remove that
subtree, returning the remaining tree and the detached subtree. -/
def remove_subtree : Page → Nat → Option (Page × Page)
  | .mk id slug u children, from_id =>
    match remove_subtree_forest children from_id with
    | some (children', moved) => some (.mk id slug u children', moved)
    | none => none

/-- Modelled from the spec: detaching search over a forest, left to right. -/
def remove_subtree_forest : List Page → Nat → Option (List Page × Page)
  | [], _ => none
  | t :: ts, from_id =>
    if t.id = from_id then some (ts, t)
    else
      match remove_subtree t from_id with
      | some (t', moved) => some (t' :: ts, moved)
      | none =>
        match remove_subtree_forest ts from_id with
        | some (ts', moved) => some (t :: ts', moved)
        | none => none

end

mutual

/-- Modelled from the spec: the attaching half of
`Page.move(to_page, pos="last-child")` — find the node with the target id and
append the moved subtree as its last child. -/
def insert_last_child : Page → Nat → Page → Option Page
  | .mk id slug u children, to_id, moved =>
    if id = to_id then some (.mk id slug u (children ++ [moved]))
    else
      match insert_last_child_forest children to_id moved with
      | some children' => some (.mk id slug u children')
      | none => none

/-- Modelled from the spec: attaching search over a forest, left to right. -/
def insert_last_child_forest : List Page → Nat → Page → Option (List Page)
  | [], _, _ => none
  | t :: ts, to_id, moved =>
    match insert_last_child t to_id moved with
    | some t' => some (t' :: ts)
    | none =>
      match insert_last_child_forest ts to_id moved with
      | some ts' => some (t :: ts')
      | none => none

end

/-- `move_pages.Command.handle`: look both pages up by id and move the first to
be the last child of the second (the lookup fails, as `Page.objects.get` raises,
when an id is absent — in particular the target cannot be inside the moved
subtree, which is detached first). -/
def move_pages (F : List Page) (from_id to_id : Nat) : Option (List Page) :=
  match remove_subtree_forest F from_id with
  | some (F1, from_page) => insert_last_child_forest F1 to_id from_page
  | none => none

mutual

theorem remove_subtree_moved_id : ∀ (t : Page) (i : Nat) (t' moved : Page),
    remove_subtree t i = some (t', moved) → moved.id = i
  | .mk id slug u children, i, t', moved, h => by
    simp only [remove_subtree] at h
    cases hf : remove_subtree_forest children i with
    | none => rw [hf] at h; exact absurd h (by simp)
    | some pr =>
        obtain ⟨cs', m⟩ := pr
        rw [hf] at h
        simp only [Option.some.injEq, Prod.mk.injEq] at h
        obtain ⟨-, rfl⟩ := h
        exact remove_subtree_forest_moved_id children i cs' m hf

theorem remove_subtree_forest_moved_id :
    ∀ (F : List Page) (i : Nat) (F' : List Page) (moved : Page),
    remove_subtree_forest F i = some (F', moved) → moved.id = i
  | t :: ts, i, F', moved, h => by
    simp only [remove_subtree_forest] at h
    by_cases hid : t.id = i
    · rw [if_pos hid] at h
      simp only [Option.some.injEq, Prod.mk.injEq] at h
      obtain ⟨-, rfl⟩ := h
      exact hid
    · rw [if_neg hid] at h
      cases ht : remove_subtree t i with
      | some pr =>
          obtain ⟨t', m⟩ := pr
          rw [ht] at h
          simp only [Option.some.injEq, Prod.mk.injEq] at h
          obtain ⟨-, rfl⟩ := h
          exact remove_subtree_moved_id t i t' m ht
      | none =>
          rw [ht] at h
          cases hts : remove_subtree_forest ts i with
          | some pr =>
              obtain ⟨ts', m⟩ := pr
              rw [hts] at h
              simp only [Option.some.injEq, Prod.mk.injEq] at h
              obtain ⟨-, rfl⟩ := h
              exact remove_subtree_forest_moved_id ts i ts' m hts
          | none => rw [hts] at h; exact absurd h (by simp)

end

mutual

theorem insert_last_child_mem : ∀ (t : Page) (to_id : Nat) (moved t' : Page),
    insert_last_child t to_id moved = some t' →
    ∃ t1, InTree t1 t' ∧ t1.id = to_id ∧ moved ∈ t1.children
  | .mk id slug u children, to_id, moved, t', h => by
    by_cases hid : id = to_id
    · simp only [insert_last_child, if_pos hid, Option.some.injEq] at h
      subst h
      exact ⟨.mk id slug u (children ++ [moved]), .self, by simpa [Page.id] using hid,
        by simp [Page.children]⟩
    · simp only [insert_last_child, if_neg hid] at h
      cases hins : insert_last_child_forest children to_id moved with
      | none => rw [hins] at h; exact absurd h (by simp)
      | some children' =>
          rw [hins] at h
          simp only [Option.some.injEq] at h
          subst h
          obtain ⟨t0, ht0, t1, hint, hid1, hmem⟩ :=
            insert_last_child_forest_mem children to_id moved children' hins
          exact ⟨t1, .step (by simpa [Page.children] using ht0) hint, hid1, hmem⟩

theorem insert_last_child_forest_mem :
    ∀ (F : List Page) (to_id : Nat) (moved : Page) (F' : List Page),
    insert_last_child_forest F to_id moved = some F' →
    ∃ t ∈ F', ∃ t1, InTree t1 t ∧ t1.id = to_id ∧ moved ∈ t1.children
  | t :: ts, to_id, moved, F', h => by
    simp only [insert_last_child_forest] at h
    cases hins : insert_last_child t to_id moved with
    | some t' =>
        rw [hins] at h
        simp only [Option.some.injEq] at h
        subst h
        obtain ⟨t1, hint, hid1, hmem⟩ := insert_last_child_mem t to_id moved t' hins
        exact ⟨t', List.mem_cons_self t' ts, t1, hint, hid1, hmem⟩
    | none =>
        rw [hins] at h
        cases hts : insert_last_child_forest ts to_id moved with
        | some ts' =>
            rw [hts] at h
            simp only [Option.some.injEq] at h
            subst h
            obtain ⟨t0, ht0, t1, hint, hid1, hmem⟩ :=
              insert_last_child_forest_mem ts to_id moved ts' hts
            exact ⟨t0, List.mem_cons_of_mem t ht0, t1, hint, hid1, hmem⟩
        | none => rw [hts] at h; exact absurd h (by simp)

end

theorem InTree_set_subtree {n T : Page} (h : InTree n T) :
    ∀ (par : Option Page), ∃ par', InTree (set_subtree n par') (set_subtree T par) := by
  induction h with
  | self => exact fun par => ⟨par, .self⟩
  | step hc hsub ih =>
      rename_i c' t'
      intro par
      obtain ⟨par', hin⟩ := ih (some (set_subtree t' par))
      refine ⟨par', InTree.step ?_ hin⟩
      rw [set_subtree_children_spec]
      exact List.mem_map.mpr ⟨c', hc, rfl⟩

/-- Claim C4: when the `move_pages` command succeeds in moving page `p`
(id `from_id`) to be the last child of the target (id `to_id`), running the
`set_url_paths` command afterwards gives the moved page a `url_path` equal to
the target's `url_path` plus the moved page's slug plus a trailing `'/'`. -/
theorem move_pages_then_set_url_paths (F F1 F2 : List Page) (from_id to_id : Nat)
    (p : Page)
    (hrem : remove_subtree_forest F from_id = some (F1, p))
    (hmov : move_pages F from_id to_id = some F2) :
    ∃ t1 p1, InForest t1 (set_url_paths F2) ∧ t1.id = to_id ∧
      p1 ∈ t1.children ∧ p1.id = from_id ∧ p1.slug = p.slug ∧
      p1.url_path = t1.url_path ++ p.slug ++ "/" := by
  have hins : insert_last_child_forest F1 to_id p = some F2 := by
    unfold move_pages at hmov
    rw [hrem] at hmov
    exact hmov
  obtain ⟨t, htF2, t1, hint, hid1, hmem⟩ :=
    insert_last_child_forest_mem F1 to_id p F2 hins
  obtain ⟨par', himg⟩ := InTree_set_subtree hint none
  refine ⟨set_subtree t1 par', set_subtree p (some (set_subtree t1 par')),
    ?_, ?_, ?_, ?_, ?_, ?_⟩
  · exact ⟨set_subtree t none,
      by simpa [set_url_paths] using List.mem_map.mpr ⟨t, htF2, rfl⟩, himg⟩
  · rw [set_subtree_id]; exact hid1
  · rw [set_subtree_children_spec]
    exact List.mem_map.mpr ⟨p, hmem, rfl⟩
  · rw [set_subtree_id]
    exact remove_subtree_forest_moved_id F from_id F1 p hrem
  · rw [set_subtree_slug]
  · rw [set_subtree_url_path_some p (set_subtree t1 par')]

/-- Witness for C4: moving the root page `blog` (id 3) under `about` (id 2) and
recomputing paths puts `blog` as a child of `about` with the concatenated path. -/
theorem move_pages_then_set_url_paths_witness :
    ∃ t1 p1,
      InForest t1 (set_url_paths
        [Page.mk 1 "home" "h" [Page.mk 2 "about" "a" [Page.mk 3 "blog" "b" []]]]) ∧
      t1.id = 2 ∧ p1 ∈ t1.children ∧ p1.id = 3 ∧
      p1.slug = (Page.mk 3 "blog" "b" []).slug ∧
      p1.url_path = t1.url_path ++ (Page.mk 3 "blog" "b" []).slug ++ "/" :=
  move_pages_then_set_url_paths
    [Page.mk 1 "home" "h" [Page.mk 2 "about" "a" []], Page.mk 3 "blog" "b" []]
    [Page.mk 1 "home" "h" [Page.mk 2 "about" "a" []]]
    [Page.mk 1 "home" "h" [Page.mk 2 "about" "a" [Page.mk 3 "blog" "b" []]]]
    3 2 (Page.mk 3 "blog" "b" []) rfl rfl

end Wagtail
